import Mathlib

/-!
Shallow embedding of the yamo-mcp-server block-submission core
(`src/index.ts`, active snapshot): validators, secure file materializer,
chain-continuity resolver, submission orchestrator, audit engine and
hash verification, together with theorems settling the frozen claims.

External collaborators (Ledger Client `YamoChainClient`, Content Store
`IpfsManager`, Node `fs` and `crypto`) are modelled as oracle fields of
explicit environment structures; SHA-256 (Node's `crypto` "sha256") is
implemented in full so the audit computation is executable.
-/

namespace Yamo

/-- JavaScript truthiness of an optional string (`undefined`/`null` and the
empty string are falsy; every other string is truthy). -/
def truthyS : Option String → Bool
  | some s => !(s == "")
  | none => false

/-- Boolean list-prefix test (used to build the substring test). -/
def isPrefixList : List Char → List Char → Bool
  | [], _ => true
  | _ :: _, [] => false
  | a :: as, b :: bs => a == b && isPrefixList as bs

/-- Boolean list-infix test: the pattern occurs contiguously somewhere. -/
def isInfixList (pat : List Char) : List Char → Bool
  | [] => isPrefixList pat []
  | c :: rest => isPrefixList pat (c :: rest) || isInfixList pat rest

/-- JavaScript `String.prototype.includes`: substring containment. -/
def includesStr (s pat : String) : Bool :=
  isInfixList pat.toList s.toList

/-- JavaScript `String.prototype.startsWith`. -/
def startsWithStr (s pre : String) : Bool :=
  isPrefixList pre.toList s.toList

/-- JavaScript `String.prototype.split` with a one-character separator
(empty segments are kept, `"".split(sep)` is `[""]`). -/
def splitOnChar (sep : Char) : List Char → List (List Char)
  | [] => [[]]
  | c :: rest =>
    if c == sep then [] :: splitOnChar sep rest
    else
      match splitOnChar sep rest with
      | s :: ss => (c :: s) :: ss
      | [] => [[c]]

/-- The segments of `blockId.split('_')`. -/
def splitUnderscore (s : String) : List String :=
  (splitOnChar '_' s.toList).map String.mk

/-- The reserved genesis digest constant `GENESIS_HASH` from the source. -/
def GENESIS_HASH : String :=
  "0x0000000000000000000000000000000000000000000000000000000000000000"

/-- One hex character as accepted by the `[a-fA-F0-9]` character class. -/
def isHexCharJS (c : Char) : Bool :=
  let n := c.toNat
  (48 ≤ n && n ≤ 57) || (97 ≤ n && n ≤ 102) || (65 ≤ n && n ≤ 70)

/-- The pattern `VALIDATION_RULES.BYTES32_PATTERN`: the regex `^0x[a-fA-F0-9]\x7b64\x7d$`
as a boolean predicate on strings. -/
def isBytes32 (s : String) : Bool :=
  match s.toList with
  | '0' :: 'x' :: rest => rest.length == 64 && rest.all isHexCharJS
  | _ => false

/-- Source `validateBytes32(value, fieldName)`: throws unless the value matches the
bytes32 pattern. -/
def validateBytes32 (value fieldName : String) : Except String Unit :=
  if !(isBytes32 value) then
    .error (fieldName ++ " must be a valid bytes32 hash (0x + 64 hex chars)")
  else .ok ()

/-- Source `validateBlockId(blockId)`: rejects the empty string (JS falsiness of
`blockId`), then rejects when `blockId.split('_')` has fewer than two
segments.  JS `split` keeps empty segments, exactly as `String.splitOn`. -/
def validateBlockId (blockId : String) : Except String Unit :=
  if blockId == "" then .error "blockId is required"
  else if (splitUnderscore blockId).length < 2 then
    .error "blockId must follow format \x7borigin\x7d_\x7bworkflow\x7d"
  else .ok ()

/-! ## Secure file materializer -/

/-- A JavaScript value in a `files` entry's `content` slot: the
`typeof file.content === 'string'` check distinguishes strings from
every other value, which we collapse into `jother`. -/
inductive JsVal where
  | jstr (s : String)
  | jother
deriving DecidableEq, Repr

/-- A `files` array entry as received by the tool. -/
structure FileInput where
  name : String
  content : JsVal
deriving DecidableEq, Repr

/-- Oracle model of the Node `fs` calls used by the materializer:
`existsSync`, `lstatSync(..).isSymbolicLink()`, `realpathSync`,
`readFile`, and `realpathSync(process.cwd())`. -/
structure FS where
  existsAt : String → Bool
  isSymlink : String → Bool
  realpath : String → String
  readFile : String → String
  cwdReal : String

/-- The two security rejections of `validateFileSecurity`. -/
inductive FileError where
  | symlinkNotAllowed (path : String)
  | pathTraversal (path : String)
deriving DecidableEq, Repr

/-- Source `validateFileSecurity(filePath)`: canonicalize the path and the allowed
root, reject symbolic links, then reject canonical paths that do not start
with the canonical allowed root (`realPath.startsWith(allowedDir)`). -/
def validateFileSecurity (fsm : FS) (filePath : String) : Except FileError Unit :=
  let realPath := fsm.realpath filePath
  let allowedDir := fsm.cwdReal
  if fsm.isSymlink filePath then .error (.symlinkNotAllowed filePath)
  else if !(startsWithStr realPath allowedDir) then .error (.pathTraversal filePath)
  else .ok ()

/-- Source `processSingleFile(file)`: when `content` is a string naming an existing
filesystem entry, run the security validation and then read the file at its
canonical path; otherwise return the input unchanged (literal payload). -/
def processSingleFile (fsm : FS) (file : FileInput) : Except FileError FileInput :=
  match file.content with
  | .jstr s =>
    if fsm.existsAt s then
      match validateFileSecurity fsm s with
      | .error e => .error e
      | .ok () => .ok { name := file.name, content := .jstr (fsm.readFile (fsm.realpath s)) }
    else .ok file
  | .jother => .ok file

/-! ## Chain-continuity resolver -/

/-- Source `resolvePreviousBlock(previousBlock?)`: caller-supplied (truthy) parent
wins; else a truthy cache value; else the ledger's latest hash when truthy
and not the genesis constant (also populating the cache); else the genesis
constant.  Returns the resolved parent and the new cache value. -/
def resolvePreviousBlock (ledgerLatest cache previousBlock : Option String) :
    String × Option String :=
  if truthyS previousBlock then (previousBlock.getD "", cache)
  else if truthyS cache then (cache.getD "", cache)
  else if truthyS ledgerLatest && !(ledgerLatest.getD "" == GENESIS_HASH) then
    (ledgerLatest.getD "", some (ledgerLatest.getD ""))
  else (GENESIS_HASH, cache)

/-! ## SHA-256 (Node `crypto.createHash("sha256")` over the UTF-8 bytes) -/

/-- Arithmetic is on 32-bit words modelled as `Nat` reduced mod `2^32`. -/
def M32 : Nat := 4294967296

/-- 32-bit mask. -/
def mask32 : Nat := 4294967295

/-- Right rotation of a 32-bit word. -/
def rotr (n x : Nat) : Nat :=
  ((x >>> n) ||| (x <<< (32 - n))) &&& mask32

/-- 32-bit complement. -/
def not32 (x : Nat) : Nat := mask32 ^^^ x

/-- UTF-8 encoding of one unicode scalar value, as byte values. -/
def utf8EncodeChar (n : Nat) : List Nat :=
  if n < 128 then [n]
  else if n < 2048 then [192 ||| (n >>> 6), 128 ||| (n &&& 63)]
  else if n < 65536 then
    [224 ||| (n >>> 12), 128 ||| ((n >>> 6) &&& 63), 128 ||| (n &&& 63)]
  else
    [240 ||| (n >>> 18), 128 ||| ((n >>> 12) &&& 63),
     128 ||| ((n >>> 6) &&& 63), 128 ||| (n &&& 63)]

/-- UTF-8 bytes of a string (what `hash.update(string)` digests in Node). -/
def utf8Bytes (s : String) : List Nat :=
  s.data.flatMap (fun c => utf8EncodeChar c.toNat)

/-- Big-endian 8-byte encoding of the bit length. -/
def be64 (n : Nat) : List Nat :=
  [(n >>> 56) &&& 255, (n >>> 48) &&& 255, (n >>> 40) &&& 255, (n >>> 32) &&& 255,
   (n >>> 24) &&& 255, (n >>> 16) &&& 255, (n >>> 8) &&& 255, n &&& 255]

/-- SHA-256 padding: `0x80`, zeros to 56 mod 64, then the 64-bit bit length. -/
def sha256Pad (msg : List Nat) : List Nat :=
  let L := msg.length
  msg ++ 128 :: List.replicate ((64 - (L + 9) % 64) % 64) 0 ++ be64 (8 * L)

/-- Group bytes into big-endian 32-bit words (fuel-driven). -/
def toWords : Nat → List Nat → List Nat
  | 0, _ => []
  | fuel + 1, b0 :: b1 :: b2 :: b3 :: rest =>
    ((b0 <<< 24) ||| (b1 <<< 16) ||| (b2 <<< 8) ||| b3) :: toWords fuel rest
  | _ + 1, _ => []

/-- Split a byte list into 64-byte blocks (fuel-driven). -/
def toBlocks : Nat → List Nat → List (List Nat)
  | 0, _ => []
  | _ + 1, [] => []
  | fuel + 1, l => l.take 64 :: toBlocks fuel (l.drop 64)

/-- The 64 SHA-256 round constants (FIPS 180-4, written in decimal). -/
def sha256K : List Nat :=
  [1116352408, 1899447441, 3049323471, 3921009573, 961987163, 1508970993,
   2453635748, 2870763221, 3624381080, 310598401, 607225278, 1426881987,
   1925078388, 2162078206, 2614888103, 3248222580, 3835390401, 4022224774,
   264347078, 604807628, 770255983, 1249150122, 1555081692, 1996064986,
   2554220882, 2821834349, 2952996808, 3210313671, 3336571891, 3584528711,
   113926993, 338241895, 666307205, 773529912, 1294757372, 1396182291,
   1695183700, 1986661051, 2177026350, 2456956037, 2730485921, 2820302411,
   3259730800, 3345764771, 3516065817, 3600352804, 4094571909, 275423344,
   430227734, 506948616, 659060556, 883997877, 958139571, 1322822218,
   1537002063, 1747873779, 1955562222, 2024104815, 2227730452, 2361852424,
   2428436474, 2756734187, 3204031479, 3329325298]

/-- Working state of the compression function. -/
structure H8 where
  a : Nat
  b : Nat
  c : Nat
  d : Nat
  e : Nat
  f : Nat
  g : Nat
  h : Nat
deriving Repr

/-- SHA-256 initial hash value (FIPS 180-4, written in decimal). -/
def sha256Init : H8 :=
  ⟨1779033703, 3144134277, 1013904242, 2773480762,
   1359893119, 2600822924, 528734635, 1541459225⟩

/-- Extend a 16-word schedule by `n` further words. -/
def extendSchedule : Nat → List Nat → List Nat
  | 0, ws => ws
  | n + 1, ws =>
    let len := ws.length
    let w15 := ws.getD (len - 15) 0
    let w2 := ws.getD (len - 2) 0
    let w16 := ws.getD (len - 16) 0
    let w7 := ws.getD (len - 7) 0
    let s0 := (rotr 7 w15) ^^^ (rotr 18 w15) ^^^ (w15 >>> 3)
    let s1 := (rotr 17 w2) ^^^ (rotr 19 w2) ^^^ (w2 >>> 10)
    extendSchedule n (ws ++ [(w16 + s0 + w7 + s1) % M32])

/-- One compression round. -/
def sha256Round (st : H8) (k w : Nat) : H8 :=
  let bigS1 := (rotr 6 st.e) ^^^ (rotr 11 st.e) ^^^ (rotr 25 st.e)
  let ch := (st.e &&& st.f) ^^^ ((not32 st.e) &&& st.g)
  let t1 := (st.h + bigS1 + ch + k + w) % M32
  let bigS0 := (rotr 2 st.a) ^^^ (rotr 13 st.a) ^^^ (rotr 22 st.a)
  let maj := (st.a &&& st.b) ^^^ (st.a &&& st.c) ^^^ (st.b &&& st.c)
  let t2 := (bigS0 + maj) % M32
  ⟨(t1 + t2) % M32, st.a, st.b, st.c, (st.d + t1) % M32, st.e, st.f, st.g⟩

/-- Compress one 64-byte block into the running hash. -/
def compressBlock (st : H8) (block : List Nat) : H8 :=
  let ws := extendSchedule 48 (toWords 16 block)
  let fin := (sha256K.zip ws).foldl (fun s kw => sha256Round s kw.1 kw.2) st
  ⟨(st.a + fin.a) % M32, (st.b + fin.b) % M32, (st.c + fin.c) % M32,
   (st.d + fin.d) % M32, (st.e + fin.e) % M32, (st.f + fin.f) % M32,
   (st.g + fin.g) % M32, (st.h + fin.h) % M32⟩

/-- SHA-256 of a byte list, as eight 32-bit words. -/
def sha256Words (msg : List Nat) : List Nat :=
  let padded := sha256Pad msg
  let st := (toBlocks padded.length padded).foldl compressBlock sha256Init
  [st.a, st.b, st.c, st.d, st.e, st.f, st.g, st.h]

/-- Lowercase hex digit. -/
def hexChar (n : Nat) : Char :=
  if n < 10 then Char.ofNat (48 + n) else Char.ofNat (87 + n)

/-- Eight lowercase hex characters of a 32-bit word, most significant first. -/
def word8hex (w : Nat) : List Char :=
  [hexChar ((w >>> 28) &&& 15), hexChar ((w >>> 24) &&& 15),
   hexChar ((w >>> 20) &&& 15), hexChar ((w >>> 16) &&& 15),
   hexChar ((w >>> 12) &&& 15), hexChar ((w >>> 8) &&& 15),
   hexChar ((w >>> 4) &&& 15), hexChar (w &&& 15)]

/-- Node `crypto.createHash("sha256").update(s).digest("hex")`: lowercase hex
SHA-256 of the UTF-8 bytes of `s`. -/
def sha256hex (s : String) : String :=
  String.mk ((sha256Words (utf8Bytes s)).flatMap word8hex)

/-! ## Submission orchestrator (`handleSubmitBlock`) -/

/-- Arguments of the `yamo_submit_block` tool (`SubmitBlockArgs`). -/
structure SubmitBlockArgs where
  blockId : String
  previousBlock : Option String
  contentHash : String
  consensusType : String
  ledger : String
  content : Option String
  files : Option (List FileInput)
  encryptionKey : Option String
deriving Repr

/-- Transaction receipt fields consumed from `tx.wait()`. -/
structure Receipt where
  txHash : String
  blockNumber : Nat
  gasUsed : String
  effectiveGasPrice : Option String
deriving DecidableEq, Repr

/-- Classified failure of a submission attempt (one thrown error per site). -/
inductive SubmitError where
  | invalidInput (msg : String)
  | fileError (e : FileError)
  | uploadFailed (msg : String)
  | ledgerFailed (msg : String)
deriving DecidableEq, Repr

/-- The success envelope of `handleSubmitBlock` (fields the core computes;
`contractAddress`/`timestamp` echo oracles and are omitted). -/
structure SubmitResponse where
  blockId : String
  transactionHash : String
  contentHash : String
  blockNumber : Nat
  gasUsed : String
  ipfsCID : Option String
  previousBlock : String
deriving DecidableEq, Repr

/-- Oracle environment of one submission attempt: the filesystem, the
Ledger Client (`getLatestBlockHash`, `submitBlock`+`wait`) and the Content
Store (`upload`). -/
structure SubmitEnv where
  fsm : FS
  ledgerLatest : Option String
  uploadResult : Except String String
  submitResult : Except String Receipt

/-- Materialize the `files` array: `files && Array.isArray(files)` guards the
mapping; any single-file failure aborts the whole submission. -/
def processFiles (fsm : FS) :
    Option (List FileInput) → Except FileError (Option (List FileInput))
  | some fl => (fl.mapM (processSingleFile fsm)).map some
  | none => .ok none

/-- Source `handleSubmitBlock(args)` on an explicit continuity-cache state:
validation, file materialization, parent resolution, optional Content Store
upload (`if (content)`), ledger submission, then the cache update
`updateLatestBlockCache(contentHash)`.  Returns the outcome and the new
cache. -/
def handleSubmitBlock (env : SubmitEnv) (cache : Option String)
    (args : SubmitBlockArgs) : Except SubmitError SubmitResponse × Option String :=
  match validateBlockId args.blockId with
  | .error m => (.error (.invalidInput m), cache)
  | .ok () =>
  match validateBytes32 args.contentHash "contentHash" with
  | .error m => (.error (.invalidInput m), cache)
  | .ok () =>
  match (if truthyS args.previousBlock then
           validateBytes32 (args.previousBlock.getD "") "previousBlock"
         else .ok ()) with
  | .error m => (.error (.invalidInput m), cache)
  | .ok () =>
  match processFiles env.fsm args.files with
  | .error e => (.error (.fileError e), cache)
  | .ok _processedFiles =>
  let rp := resolvePreviousBlock env.ledgerLatest cache args.previousBlock
  match (if truthyS args.content then env.uploadResult.map some else .ok none) with
  | .error m => (.error (.uploadFailed m), rp.2)
  | .ok ipfsCID =>
  match env.submitResult with
  | .error m => (.error (.ledgerFailed m), rp.2)
  | .ok receipt =>
    (.ok { blockId := args.blockId
           transactionHash := receipt.txHash
           contentHash := args.contentHash
           blockNumber := receipt.blockNumber
           gasUsed := receipt.gasUsed
           ipfsCID := if truthyS ipfsCID then ipfsCID else none
           previousBlock := rp.1 },
     some args.contentHash)

/-! ## Audit engine (`handleAuditBlock`) -/

/-- A block record as returned by `chain.getBlock` (`RawBlock`). -/
structure RawBlock where
  blockId : String
  previousBlock : String
  agentAddress : String
  contentHash : String
  timestamp : Nat
  consensusType : String
  ledger : String
  ipfsCID : Option String
deriving DecidableEq, Repr

/-- A downloaded content bundle (`ipfs.downloadBundle` result). -/
structure Bundle where
  block : String
  files : List (String × String)
deriving DecidableEq, Repr

/-- Arguments of the `yamo_audit_block` tool. -/
structure AuditBlockArgs where
  blockId : String
  encryptionKey : Option String
deriving DecidableEq, Repr

/-- The JavaScript value placed in the `verified` field: `true`, `false`
or `null`. -/
inductive Verified where
  | vtrue
  | vfalse
  | vnull
deriving DecidableEq, Repr

/-- The audit response object, with the fields the four return sites set;
absent JSON fields are `none`, and `isError` records `createErrorResponse`
versus `createSuccessResponse`. -/
structure AuditResponse where
  isError : Bool
  verified : Verified
  errorMessage : Option String := none
  errorType : Option String := none
  hint : Option String := none
  onChainHash : Option String := none
  computedHash : Option String := none
  ipfsCID : Option String := none
  note : Option String := none
  contentPreview : Option String := none
deriving DecidableEq, Repr

/-- Oracle environment of an audit: `chain.getBlock` and
`ipfs.downloadBundle(cid, key)` (failure carries the thrown message). -/
structure AuditEnv where
  getBlock : String → Option RawBlock
  downloadBundle : String → Option String → Except String Bundle

/-- The preview `bundle.block.substring(0, 500) + (len > 500 ? "..." : "")`. -/
def previewOf (s : String) : String :=
  String.mk (s.toList.take 500) ++ (if 500 < s.toList.length then "..." else "")

/-- Source `handleAuditBlock(args)`: absent block, block without CID, successful
download with hash recomputation, or download failure with the message-based
`errorType` classification of the catch block. -/
def handleAuditBlock (env : AuditEnv) (args : AuditBlockArgs) : AuditResponse :=
  match env.getBlock args.blockId with
  | none =>
    { isError := true
      verified := .vfalse
      errorMessage := some "Block not found on-chain"
      hint := some "Cannot audit non-existent block" }
  | some block =>
    if !(truthyS block.ipfsCID) then
      { isError := false
        verified := .vnull
        onChainHash := some block.contentHash
        ipfsCID := none
        note := some "V1 block with no IPFS CID - cannot audit actual content" }
    else
      match env.downloadBundle (block.ipfsCID.getD "") args.encryptionKey with
      | .ok bundle =>
        let computedHash := "0x" ++ sha256hex bundle.block
        { isError := false
          verified := if computedHash == block.contentHash then .vtrue else .vfalse
          onChainHash := some block.contentHash
          computedHash := some computedHash
          ipfsCID := block.ipfsCID
          contentPreview := some (previewOf bundle.block) }
      | .error msg =>
        let et :=
          if includesStr msg "encrypted" && !(truthyS args.encryptionKey) then
            ("missing_key", "This bundle is encrypted. Provide encryptionKey to audit.")
          else if includesStr msg "Decryption failed" || includesStr msg "decrypt" then
            ("decryption_failed", "The provided encryption key may be incorrect.")
          else if includesStr msg "not found on-chain" then
            ("block_not_found", "Verify the blockId was submitted correctly.")
          else ("unknown", "")
        { isError := true
          verified := .vfalse
          errorMessage := some msg
          errorType := some et.1
          hint := some et.2 }

/-! ## Hash verification (`handleVerifyBlock`) -/

/-- Oracle environment for verification: `contract.verifyBlock`. -/
structure VerifyEnv where
  verifyBlock : String → String → Bool

/-- Source `handleVerifyBlock(args)`: normalize the `0x` prefix, ask the contract,
render the boolean as "VERIFIED"/"FAILED". -/
def handleVerifyBlock (env : VerifyEnv) (blockId contentHash : String) : String :=
  let hashBytes := if startsWithStr contentHash "0x" then contentHash
                   else "0x" ++ contentHash
  if env.verifyBlock blockId hashBytes then "VERIFIED" else "FAILED"

/-! ## Concrete fixtures used by witnesses and counterexamples -/

/-- The 0x-prefixed SHA-256 digest of "abc": a well-formed bytes32 value. -/
def digestAbc : String :=
  "0xba7816bf8f01cfea414140de5dae2223b00361a396177a9cb410ff61f20015ad"

/-- A non-genesis well-formed digest used as a ledger answer. -/
def hashOnes : String :=
  "0x1111111111111111111111111111111111111111111111111111111111111111"

/-- A small filesystem: a sandbox root `/tmp/sandbox` holding `t.json`, and
`/etc/passwd` existing outside it; no symbolic links; canonicalization is
the identity. -/
def fsW : FS :=
  { existsAt := fun p => p == "/tmp/sandbox/t.json" || p == "/etc/passwd"
    isSymlink := fun _ => false
    realpath := fun p => p
    readFile := fun p => if p == "/tmp/sandbox/t.json" then "\x7b\"x\":1\x7d" else "secret"
    cwdReal := "/tmp/sandbox" }

/-- Like `fsW` but `/tmp/sandbox/link` exists and is a symbolic link. -/
def fsLink : FS :=
  { fsW with
    existsAt := fun p => p == "/tmp/sandbox/link"
    isSymlink := fun p => p == "/tmp/sandbox/link" }

/-- Submission arguments: content "abc" declared with its real digest. -/
def argsW : SubmitBlockArgs :=
  { blockId := "claude_chain"
    previousBlock := none
    contentHash := digestAbc
    consensusType := "PoS"
    ledger := "ipfs"
    content := some "abc"
    files := none
    encryptionKey := none }

/-- A submission environment in which every external call succeeds and the
ledger holds no prior block. -/
def senvW : SubmitEnv :=
  { fsm := fsW
    ledgerLatest := none
    uploadResult := .ok "QmCID"
    submitResult := .ok { txHash := "0xTX", blockNumber := 1, gasUsed := "21000",
                          effectiveGasPrice := none } }

/-- The success envelope `handleSubmitBlock` produces for `senvW`/`argsW`. -/
def respW : SubmitResponse :=
  { blockId := "claude_chain"
    transactionHash := "0xTX"
    contentHash := digestAbc
    blockNumber := 1
    gasUsed := "21000"
    ipfsCID := some "QmCID"
    previousBlock := GENESIS_HASH }

/-- The `argsW` submission with the inline content replaced by the empty
string. -/
def argsEC : SubmitBlockArgs := { argsW with content := some "" }

/-- An environment whose Content Store upload fails while the ledger holds a
non-genesis latest hash. -/
def senvFail : SubmitEnv :=
  { senvW with ledgerLatest := some hashOnes, uploadResult := .error "upload failed" }

/-- The on-chain record of the `argsW` submission, anchored at CID "QmCID". -/
def blockW : RawBlock :=
  { blockId := "claude_chain"
    previousBlock := GENESIS_HASH
    agentAddress := "0xagent"
    contentHash := digestAbc
    timestamp := 0
    consensusType := "PoS"
    ledger := "ipfs"
    ipfsCID := some "QmCID" }

/-- The downloaded bundle returning the submitted content unchanged. -/
def bundleW : Bundle := { block := "abc", files := [] }

/-- Audit environment consistent with the `argsW` submission. -/
def aenvW : AuditEnv :=
  { getBlock := fun _ => some blockW
    downloadBundle := fun _ _ => .ok bundleW }

/-- Audit arguments for the round-trip witness. -/
def aargsW : AuditBlockArgs := { blockId := "claude_chain", encryptionKey := none }

/-- The `argsW` block as a V1 record with no content reference. -/
def blockNoCid : RawBlock := { blockW with ipfsCID := none }

/-- Audit environment returning only the V1 record without a CID. -/
def aenvNoCid : AuditEnv :=
  { getBlock := fun _ => some blockNoCid
    downloadBundle := fun _ _ => .error "unreachable" }

/-- Audit environment whose bundle download reports an encrypted bundle. -/
def aenvEncrypted : AuditEnv :=
  { getBlock := fun _ => some blockW
    downloadBundle := fun _ _ => .error "Bundle is encrypted" }

/-- Audit environment whose ledger has no blocks at all. -/
def aenvNone : AuditEnv :=
  { getBlock := fun _ => none
    downloadBundle := fun _ _ => .error "unreachable" }

/-- Audit environment whose bundle download throws a message containing
"not found on-chain" (and neither "encrypted" nor "decrypt"). -/
def aenvNotFound : AuditEnv :=
  { getBlock := fun _ => some blockW
    downloadBundle := fun _ _ => .error "CID not found on-chain" }

/-! # Theorems -/

/-- The SHA-256 embedding matches the FIPS 180 test vector for "abc". -/
theorem sha256hex_abc : sha256hex "abc" =
    "ba7816bf8f01cfea414140de5dae2223b00361a396177a9cb410ff61f20015ad" := by rfl

/-- The SHA-256 embedding matches the empty-string test vector. -/
theorem sha256hex_empty : sha256hex "" =
    "e3b0c44298fc1c149afbf4c8996fb92427ae41e4649b934ca495991b7852b855" := by rfl

/-- A well-formed bytes32 value is non-empty. -/
theorem isBytes32_ne_empty {p : String} (h : isBytes32 p = true) : p ≠ "" := by
  intro he
  subst he
  exact absurd h (by decide)

/-- A non-empty optional string is truthy. -/
theorem truthyS_some_of_ne {p : String} (h : p ≠ "") : truthyS (some p) = true := by
  simp [truthyS, h]

/-- C8 counterexample: "a_" splits into segments of which only one is
non-empty, so the claim demands an `InvalidFormat` rejection, yet
`validateBlockId` accepts it — JS `split` keeps empty segments and the code
counts all of them. -/
theorem c8_counterexample :
    (((splitUnderscore "a_").filter (fun seg => !(seg == ""))).length < 2) ∧
    validateBlockId "a_" = .ok () := by
  constructor
  · decide
  · rfl

/-- C8 (amended): `validateBlockId` fails exactly when the id is empty or
splitting on the underscore yields fewer than two (possibly empty)
segments; any id whose split has at least two non-empty segments is
accepted. -/
theorem c8_blockId_validation (id : String) :
    ((∃ e, validateBlockId id = .error e) ↔
      (id = "" ∨ (splitUnderscore id).length < 2))
    ∧ (2 ≤ ((splitUnderscore id).filter (fun seg => !(seg == ""))).length →
        validateBlockId id = .ok ()) := by
  have hsplit : splitUnderscore "" = [""] := rfl
  constructor
  · constructor
    · rintro ⟨e, he⟩
      unfold validateBlockId at he
      by_cases h1 : id = ""
      · exact .inl h1
      · by_cases h2 : (splitUnderscore id).length < 2
        · exact .inr h2
        · simp [h1, h2] at he
    · intro h
      unfold validateBlockId
      rcases h with h | h
      · subst h; simp
      · by_cases h1 : id = ""
        · subst h1; simp
        · simp [h1, h]
  · intro h2
    have hlen : 2 ≤ (splitUnderscore id).length :=
      le_trans h2 (List.length_filter_le _ _)
    have hne : id ≠ "" := by
      intro h
      subst h
      rw [hsplit] at hlen
      simp at hlen
    unfold validateBlockId
    simp [hne, Nat.not_lt.mpr hlen]

/-- C8 witness: a well-formed id is accepted via the amended theorem. -/
theorem c8_blockId_validation_witness :
    validateBlockId "claude_chain" = .ok () :=
  (c8_blockId_validation "claude_chain").2 (by decide)

/-- C9: hash verification normalizes only the `0x` prefix — a prefixed
digest is passed to the Ledger Client unchanged and an unprefixed one gets
`0x` prepended — and the result renders the client's boolean as
"VERIFIED"/"FAILED". -/
theorem c9_verify (env : VerifyEnv) (blockId h : String) :
    (startsWithStr h "0x" = true → handleVerifyBlock env blockId h =
      (if env.verifyBlock blockId h then "VERIFIED" else "FAILED"))
    ∧ (startsWithStr h "0x" = false → handleVerifyBlock env blockId h =
      (if env.verifyBlock blockId ("0x" ++ h) then "VERIFIED" else "FAILED")) := by
  unfold handleVerifyBlock
  constructor
  · intro hs
    simp [hs]
  · intro hs
    simp [hs]

/-- C9 witness: an unprefixed digest is verified against its prefixed form. -/
theorem c9_verify_witness :
    handleVerifyBlock ⟨fun _ d => d == "0xff"⟩ "claude_chain" "ff" = "VERIFIED" := by
  have h := (c9_verify ⟨fun _ d => d == "0xff"⟩ "claude_chain" "ff").2 (by decide)
  simpa using h

/-- C3: the Chain-Continuity Resolver returns a caller-supplied parent
digest unchanged without touching the cache; otherwise a non-empty cache
value; otherwise a truthy non-genesis ledger answer, which it also stores
in the cache; and with an empty cache and an empty (or genesis) ledger it
returns exactly the reserved genesis digest. -/
theorem c3_resolver (ledgerLatest cache previousBlock : Option String) :
    (∀ p, previousBlock = some p → isBytes32 p = true →
      resolvePreviousBlock ledgerLatest cache previousBlock = (p, cache))
    ∧ (truthyS previousBlock = false → ∀ c, cache = some c → c ≠ "" →
      resolvePreviousBlock ledgerLatest cache previousBlock = (c, cache))
    ∧ (truthyS previousBlock = false → truthyS cache = false →
      ∀ h, ledgerLatest = some h → h ≠ "" → h ≠ GENESIS_HASH →
      resolvePreviousBlock ledgerLatest cache previousBlock = (h, some h))
    ∧ (truthyS previousBlock = false → truthyS cache = false →
      (truthyS ledgerLatest = false ∨ ledgerLatest = some GENESIS_HASH) →
      resolvePreviousBlock ledgerLatest cache previousBlock =
        (GENESIS_HASH, cache)) := by
  refine ⟨?_, ?_, ?_, ?_⟩
  · intro p hp hval
    subst hp
    have := truthyS_some_of_ne (isBytes32_ne_empty hval)
    simp [resolvePreviousBlock, this]
  · intro hpb c hc hcne
    subst hc
    simp [resolvePreviousBlock, hpb, truthyS_some_of_ne hcne]
  · intro hpb hcache h hl hne hng
    subst hl
    simp [resolvePreviousBlock, hpb, hcache, truthyS_some_of_ne hne, hng]
  · intro hpb hcache hl
    rcases hl with hl | hl
    · simp [resolvePreviousBlock, hpb, hcache, hl]
    · subst hl
      simp [resolvePreviousBlock, hpb, hcache]

/-- C3 witness: a supplied parent wins; with nothing supplied and nothing
cached over an empty ledger, genesis is returned. -/
theorem c3_resolver_witness :
    resolvePreviousBlock none none (some hashOnes) = (hashOnes, none) ∧
    resolvePreviousBlock none none none = (GENESIS_HASH, none) :=
  ⟨(c3_resolver none none (some hashOnes)).1 hashOnes rfl (by decide),
   (c3_resolver none none none).2.2.2 rfl rfl (.inl rfl)⟩

/-- C4: materialization returns the input unchanged when `content` is not a
string or names no existing filesystem entry, and resolves an existing
in-sandbox regular file to the text read at its canonical path, keeping the
original name. -/
theorem c4_materialization (fsm : FS) (file : FileInput) :
    (file.content = .jother → processSingleFile fsm file = .ok file)
    ∧ (∀ s, file.content = .jstr s → fsm.existsAt s = false →
        processSingleFile fsm file = .ok file)
    ∧ (∀ s, file.content = .jstr s → fsm.existsAt s = true →
        fsm.isSymlink s = false →
        startsWithStr (fsm.realpath s) fsm.cwdReal = true →
        processSingleFile fsm file =
          .ok { name := file.name
                content := .jstr (fsm.readFile (fsm.realpath s)) }) := by
  refine ⟨?_, ?_, ?_⟩
  · intro h
    simp [processSingleFile, h]
  · intro s hs hex
    simp [processSingleFile, hs, hex]
  · intro s hs hex hsym hpre
    simp [processSingleFile, hs, hex, validateFileSecurity, hsym, hpre]

/-- C4 witness: the spec scenario — an existing sandboxed path is read, and
a non-existent path string stays literal content. -/
theorem c4_materialization_witness :
    processSingleFile fsW ⟨"t.json", .jstr "/tmp/sandbox/t.json"⟩ =
      .ok ⟨"t.json", .jstr "\x7b\"x\":1\x7d"⟩ ∧
    processSingleFile fsW ⟨"t.json", .jstr "/tmp/sandbox/missing.json"⟩ =
      .ok ⟨"t.json", .jstr "/tmp/sandbox/missing.json"⟩ :=
  ⟨((c4_materialization fsW ⟨"t.json", .jstr "/tmp/sandbox/t.json"⟩).2.2
      "/tmp/sandbox/t.json" rfl (by decide) (by decide) (by decide)).trans (by rfl),
   (c4_materialization fsW ⟨"t.json", .jstr "/tmp/sandbox/missing.json"⟩).2.1
      "/tmp/sandbox/missing.json" rfl (by decide)⟩

/-- C1: for an existing path, materialization fails with
`SymlinkNotAllowed` when the path is a symbolic link and with
`PathTraversal` when (not a symlink and) its canonical form does not start
with the canonical allowed root; any failure is independent of the read
oracle (no bytes are read), and success implies both checks passed. -/
theorem c1_file_security (fsm : FS) (file : FileInput) (s : String)
    (hc : file.content = .jstr s) (hex : fsm.existsAt s = true) :
    (fsm.isSymlink s = true →
      processSingleFile fsm file = .error (.symlinkNotAllowed s))
    ∧ (fsm.isSymlink s = false →
      startsWithStr (fsm.realpath s) fsm.cwdReal = false →
      processSingleFile fsm file = .error (.pathTraversal s))
    ∧ (∀ e, processSingleFile fsm file = .error e →
      ∀ g, processSingleFile { fsm with readFile := g } file = .error e)
    ∧ (∀ out, processSingleFile fsm file = .ok out →
      fsm.isSymlink s = false ∧
      startsWithStr (fsm.realpath s) fsm.cwdReal = true) := by
  refine ⟨?_, ?_, ?_, ?_⟩
  · intro hsym
    simp [processSingleFile, hc, hex, validateFileSecurity, hsym]
  · intro hsym hpre
    simp [processSingleFile, hc, hex, validateFileSecurity, hsym, hpre]
  · intro e he g
    by_cases hsym : fsm.isSymlink s = true
    · simp [processSingleFile, hc, hex, validateFileSecurity, hsym] at he ⊢
      exact he
    · rw [Bool.not_eq_true] at hsym
      by_cases hpre : startsWithStr (fsm.realpath s) fsm.cwdReal = true
      · simp [processSingleFile, hc, hex, validateFileSecurity, hsym, hpre] at he
      · rw [Bool.not_eq_true] at hpre
        simp [processSingleFile, hc, hex, validateFileSecurity, hsym, hpre] at he ⊢
        exact he
  · intro out hout
    by_cases hsym : fsm.isSymlink s = true
    · simp [processSingleFile, hc, hex, validateFileSecurity, hsym] at hout
    · rw [Bool.not_eq_true] at hsym
      by_cases hpre : startsWithStr (fsm.realpath s) fsm.cwdReal = true
      · exact ⟨hsym, hpre⟩
      · rw [Bool.not_eq_true] at hpre
        simp [processSingleFile, hc, hex, validateFileSecurity, hsym, hpre] at hout

/-- C1 witness: `/etc/passwd` exists outside the sandbox root and is
rejected with `PathTraversal`; a symbolic link inside the sandbox is
rejected with `SymlinkNotAllowed`. -/
theorem c1_file_security_witness :
    fsW.existsAt "/etc/passwd" = true ∧
    processSingleFile fsW ⟨"pw", .jstr "/etc/passwd"⟩ =
      .error (.pathTraversal "/etc/passwd") ∧
    processSingleFile fsLink ⟨"l", .jstr "/tmp/sandbox/link"⟩ =
      .error (.symlinkNotAllowed "/tmp/sandbox/link") :=
  ⟨by decide,
   (c1_file_security fsW ⟨"pw", .jstr "/etc/passwd"⟩ "/etc/passwd" rfl
      (by decide)).2.1 (by decide) (by decide),
   (c1_file_security fsLink ⟨"l", .jstr "/tmp/sandbox/link"⟩ "/tmp/sandbox/link" rfl
      (by decide)).1 (by decide)⟩

/-- C6: a blockId absent on the ledger yields an error result with
`verified = false` and the not-found message (and no catch-block error
class); a block present without a content reference yields the distinct
third value `verified = null` with an explanatory note and the on-chain
hash; and each of those two outcome shapes occurs in no other case. -/
theorem c6_audit_outcomes (env : AuditEnv) (args : AuditBlockArgs) :
    (env.getBlock args.blockId = none →
      (handleAuditBlock env args).verified = .vfalse ∧
      (handleAuditBlock env args).isError = true ∧
      (handleAuditBlock env args).errorMessage = some "Block not found on-chain" ∧
      (handleAuditBlock env args).errorType = none)
    ∧ (∀ b, env.getBlock args.blockId = some b → truthyS b.ipfsCID = false →
      (handleAuditBlock env args).verified = .vnull ∧
      (handleAuditBlock env args).note =
        some "V1 block with no IPFS CID - cannot audit actual content" ∧
      (handleAuditBlock env args).onChainHash = some b.contentHash)
    ∧ ((handleAuditBlock env args).verified = .vnull ↔
      ∃ b, env.getBlock args.blockId = some b ∧ truthyS b.ipfsCID = false)
    ∧ (((handleAuditBlock env args).isError = true ∧
        (handleAuditBlock env args).errorType = none) ↔
      env.getBlock args.blockId = none) := by
  unfold handleAuditBlock
  cases hgb : env.getBlock args.blockId with
  | none => simp [hgb]
  | some b =>
    by_cases hcid : truthyS b.ipfsCID = true
    · cases hdl : env.downloadBundle (b.ipfsCID.getD "") args.encryptionKey with
      | ok bundle =>
        by_cases hv : ("0x" ++ sha256hex bundle.block) == b.contentHash
        · simp [hgb, hcid, hdl, hv]
        · simp [hgb, hcid, hdl, hv]
      | error msg => simp [hgb, hcid, hdl]
    · rw [Bool.not_eq_true] at hcid
      simp [hgb, hcid]

/-- C6 witness: an absent block audits to `verified = false`; a block with
no content reference audits to the distinguished `verified = null` with
the explanatory note. -/
theorem c6_audit_outcomes_witness :
    (handleAuditBlock aenvNone aargsW).verified = .vfalse ∧
    (handleAuditBlock aenvNoCid aargsW).verified = .vnull ∧
    (handleAuditBlock aenvNoCid aargsW).note =
      some "V1 block with no IPFS CID - cannot audit actual content" :=
  ⟨((c6_audit_outcomes aenvNone aargsW).1 rfl).1,
   ((c6_audit_outcomes aenvNoCid aargsW).2.1 blockNoCid rfl (by decide)).1,
   ((c6_audit_outcomes aenvNoCid aargsW).2.1 blockNoCid rfl (by decide)).2.1⟩

/-- C7 counterexample: a download failure whose message is
"CID not found on-chain" matches neither of the claim's two named
conditions (the message does not report an encrypted bundle, and no
decryption was involved), so the claim requires class `Unknown`; the code
instead classifies it as `block_not_found`. -/
theorem c7_counterexample :
    truthyS aargsW.encryptionKey = false ∧
    includesStr "CID not found on-chain" "encrypted" = false ∧
    includesStr "CID not found on-chain" "Decryption failed" = false ∧
    includesStr "CID not found on-chain" "decrypt" = false ∧
    (handleAuditBlock aenvNotFound aargsW).verified = .vfalse ∧
    (handleAuditBlock aenvNotFound aargsW).errorType = some "block_not_found" :=
  ⟨by decide, by decide, by decide, by decide, by rfl, by rfl⟩

/-- C7 (amended): on a download/decrypt failure the audit reports
`verified = false` and classifies the failure by its message:
`missing_key` when the message contains "encrypted" and no key was given;
otherwise `decryption_failed` when the message contains "Decryption
failed" or "decrypt"; otherwise `block_not_found` when the message
contains "not found on-chain"; otherwise `unknown`. -/
theorem c7_audit_error_classification (env : AuditEnv) (args : AuditBlockArgs)
    (b : RawBlock) (msg : String)
    (hb : env.getBlock args.blockId = some b)
    (hcid : truthyS b.ipfsCID = true)
    (hdl : env.downloadBundle (b.ipfsCID.getD "") args.encryptionKey = .error msg) :
    (handleAuditBlock env args).verified = .vfalse
    ∧ (handleAuditBlock env args).isError = true
    ∧ (includesStr msg "encrypted" = true → truthyS args.encryptionKey = false →
      (handleAuditBlock env args).errorType = some "missing_key")
    ∧ ((includesStr msg "encrypted" && !(truthyS args.encryptionKey)) = false →
      (includesStr msg "Decryption failed" || includesStr msg "decrypt") = true →
      (handleAuditBlock env args).errorType = some "decryption_failed")
    ∧ ((includesStr msg "encrypted" && !(truthyS args.encryptionKey)) = false →
      (includesStr msg "Decryption failed" || includesStr msg "decrypt") = false →
      includesStr msg "not found on-chain" = true →
      (handleAuditBlock env args).errorType = some "block_not_found")
    ∧ ((includesStr msg "encrypted" && !(truthyS args.encryptionKey)) = false →
      (includesStr msg "Decryption failed" || includesStr msg "decrypt") = false →
      includesStr msg "not found on-chain" = false →
      (handleAuditBlock env args).errorType = some "unknown") := by
  unfold handleAuditBlock
  refine ⟨?_, ?_, ?_, ?_, ?_, ?_⟩
  · simp [hb, hcid, hdl]
  · simp [hb, hcid, hdl]
  · intro h1 h2
    simp [hb, hcid, hdl, h1, h2]
  · intro h1 h2
    simp [hb, hcid, hdl, h1, h2]
  · intro h1 h2 h3
    simp [hb, hcid, hdl, h1, h2, h3]
  · intro h1 h2 h3
    simp [hb, hcid, hdl, h1, h2, h3]

/-- C7 witness: an encrypted bundle downloaded without a key classifies as
`missing_key` with `verified = false`. -/
theorem c7_audit_error_classification_witness :
    (handleAuditBlock aenvEncrypted aargsW).verified = .vfalse ∧
    (handleAuditBlock aenvEncrypted aargsW).errorType = some "missing_key" :=
  ⟨(c7_audit_error_classification aenvEncrypted aargsW blockW "Bundle is encrypted"
      rfl (by decide) rfl).1,
   (c7_audit_error_classification aenvEncrypted aargsW blockW "Bundle is encrypted"
      rfl (by decide) rfl).2.2.1 (by decide) (by decide)⟩

/-- The resolver's cache output is either the old cache or — only when
nothing truthy was supplied or cached — the ledger's truthy non-genesis
answer. -/
theorem resolvePreviousBlock_snd (l c p : Option String) :
    (resolvePreviousBlock l c p).2 = c ∨
    (truthyS c = false ∧ truthyS p = false ∧ truthyS l = true ∧
     l.getD "" ≠ GENESIS_HASH ∧ (resolvePreviousBlock l c p).2 = some (l.getD "")) := by
  unfold resolvePreviousBlock
  by_cases hp : truthyS p = true
  · left
    simp [hp]
  · rw [Bool.not_eq_true] at hp
    by_cases hc : truthyS c = true
    · left
      simp [hp, hc]
    · rw [Bool.not_eq_true] at hc
      by_cases hl : (truthyS l && !(l.getD "" == GENESIS_HASH)) = true
      · right
        obtain ⟨hl1, hl2⟩ := Bool.and_eq_true_iff.mp hl
        refine ⟨hc, hp, hl1, ?_, ?_⟩
        · intro heq
          rw [heq] at hl2
          simp at hl2
        · simp [hp, hc, hl]
      · rw [Bool.not_eq_true] at hl
        left
        simp [hp, hc, hl]

/-- Inversion of a successful submission: the success envelope echoes the
caller-declared content hash and the cache is set to that hash. -/
theorem handleSubmitBlock_ok (env : SubmitEnv) (cache : Option String)
    (args : SubmitBlockArgs) (resp : SubmitResponse) (cache' : Option String)
    (h : handleSubmitBlock env cache args = (.ok resp, cache')) :
    resp.contentHash = args.contentHash ∧ cache' = some args.contentHash := by
  unfold handleSubmitBlock at h
  repeat' split at h
  all_goals simp_all
  all_goals simp [← h.1]

/-- C2 counterexample: with an empty cache, no supplied parent, a ledger
whose latest hash is non-genesis, and a failing Content Store upload, the
submission fails yet the cache has changed from `none` to the ledger's
hash — it does not retain the value it held before the submission. -/
theorem c2_counterexample :
    (handleSubmitBlock senvFail none argsW).1 = .error (.uploadFailed "upload failed") ∧
    (handleSubmitBlock senvFail none argsW).2 = some hashOnes ∧
    some hashOnes ≠ (none : Option String) :=
  ⟨by rfl, by rfl, by simp⟩

/-- C2 (amended): the cache is overwritten with the new block's
caller-declared content hash exactly on ledger-confirmed success; on any
failure the cache is unchanged except that parent resolution may have
populated an empty cache with the ledger's latest non-genesis hash (a hash
of an already-accepted block, never of the failed submission). -/
theorem c2_cache_update (env : SubmitEnv) (cache : Option String)
    (args : SubmitBlockArgs) :
    (∀ resp cache', handleSubmitBlock env cache args = (.ok resp, cache') →
      cache' = some args.contentHash)
    ∧ (∀ e cache', handleSubmitBlock env cache args = (.error e, cache') →
      cache' = cache ∨
      (truthyS cache = false ∧ truthyS args.previousBlock = false ∧
       truthyS env.ledgerLatest = true ∧ env.ledgerLatest.getD "" ≠ GENESIS_HASH ∧
       cache' = some (env.ledgerLatest.getD ""))) := by
  constructor
  · intro resp cache' h
    exact (handleSubmitBlock_ok env cache args resp cache' h).2
  · intro e cache' h
    have hsnd := resolvePreviousBlock_snd env.ledgerLatest cache args.previousBlock
    unfold handleSubmitBlock at h
    split at h
    · injection h with h1 h2
      exact .inl h2.symm
    · split at h
      · injection h with h1 h2
        exact .inl h2.symm
      · split at h
        · injection h with h1 h2
          exact .inl h2.symm
        · split at h
          · injection h with h1 h2
            exact .inl h2.symm
          · split at h
            · injection h with h1 h2
              rcases hsnd with hs | ⟨ha, hb, hc, hd, he⟩
              · exact .inl (h2.symm.trans hs)
              · exact .inr ⟨ha, hb, hc, hd, h2.symm.trans he⟩
            · split at h
              · injection h with h1 h2
                rcases hsnd with hs | ⟨ha, hb, hc, hd, he⟩
                · exact .inl (h2.symm.trans hs)
                · exact .inr ⟨ha, hb, hc, hd, h2.symm.trans he⟩
              · injection h with h1 h2
                exact absurd h1 (by simp)

/-- C2 witness: a fully successful submission sets the cache to the
submitted content hash. -/
theorem c2_cache_update_witness :
    handleSubmitBlock senvW none argsW = (.ok respW, some digestAbc) ∧
    (some digestAbc : Option String) = some argsW.contentHash :=
  ⟨by rfl, (c2_cache_update senvW none argsW).1 respW (some digestAbc) (by rfl)⟩

/-- C5: for a submission accepted by the ledger and a Content Store that
returns the bundle unchanged, auditing recomputes `0x` + lowercase-hex
SHA-256 of the bundle content, and reports `verified = true` exactly when
that digest is string-equal to the on-chain digest supplied at
submission. -/
theorem c5_roundtrip (senv : SubmitEnv) (cache : Option String)
    (args : SubmitBlockArgs) (resp : SubmitResponse) (cache' : Option String)
    (aenv : AuditEnv) (aargs : AuditBlockArgs) (block : RawBlock) (bundle : Bundle)
    (hsub : handleSubmitBlock senv cache args = (.ok resp, cache'))
    (hblk : aenv.getBlock aargs.blockId = some block)
    (hhash : block.contentHash = resp.contentHash)
    (hcid : truthyS block.ipfsCID = true)
    (hdl : aenv.downloadBundle (block.ipfsCID.getD "") aargs.encryptionKey = .ok bundle) :
    resp.contentHash = args.contentHash
    ∧ (handleAuditBlock aenv aargs).computedHash =
        some ("0x" ++ sha256hex bundle.block)
    ∧ ((handleAuditBlock aenv aargs).verified = .vtrue ↔
        "0x" ++ sha256hex bundle.block = args.contentHash) := by
  obtain ⟨hch, -⟩ := handleSubmitBlock_ok senv cache args resp cache' hsub
  refine ⟨hch, ?_, ?_⟩
  · unfold handleAuditBlock
    simp [hblk, hcid, hdl]
  · unfold handleAuditBlock
    simp only [hblk, hcid, hdl]
    rw [hhash, hch]
    by_cases hv : "0x" ++ sha256hex bundle.block = args.contentHash
    · simp [hv]
    · simp [hv]

/-- C5 witness: submitting "abc" under its true digest and auditing the
stored bundle recomputes that digest and verifies. -/
theorem c5_roundtrip_witness :
    (handleAuditBlock aenvW aargsW).computedHash = some digestAbc ∧
    (handleAuditBlock aenvW aargsW).verified = .vtrue := by
  have h := c5_roundtrip senvW none argsW respW (some digestAbc) aenvW aargsW blockW
    bundleW (by rfl) rfl rfl (by decide) rfl
  exact ⟨h.2.1.trans (by rfl), h.2.2.mpr (by rfl)⟩

/-- C10: a submission whose inline content is the empty string skips the
Content Store upload entirely (the outcome is independent of the upload
oracle), is indistinguishable from a submission with no content at all,
and reports a null content reference in the success envelope. -/
theorem c10_empty_content (env : SubmitEnv) (cache : Option String)
    (args : SubmitBlockArgs) (hc : args.content = some "") :
    (∀ u, handleSubmitBlock { env with uploadResult := u } cache args =
      handleSubmitBlock env cache args)
    ∧ handleSubmitBlock env cache args =
      handleSubmitBlock env cache { args with content := none }
    ∧ (∀ resp cache', handleSubmitBlock env cache args = (.ok resp, cache') →
      resp.ipfsCID = none) := by
  refine ⟨?_, ?_, ?_⟩
  · intro u
    unfold handleSubmitBlock
    simp [hc, truthyS]
  · unfold handleSubmitBlock
    simp [hc, truthyS]
  · intro resp cache' h
    unfold handleSubmitBlock at h
    simp [hc, truthyS] at h
    repeat' split at h
    all_goals simp_all
    simp [← h.1]

/-- C10 witness: the empty-string-content submission equals the
no-content submission on the same environment. -/
theorem c10_empty_content_witness :
    handleSubmitBlock senvW none argsEC =
      handleSubmitBlock senvW none { argsEC with content := none } :=
  (c10_empty_content senvW none argsEC rfl).2.1

end Yamo
